import Mathlib

/-!
Verification of the Tiny Tapeout precheck pipeline (src/precheck/precheck.py).

The development shallowly embeds the pipeline: file contents are lists of
characters, the layout accessor (the external gdstk library) is modelled at
its interface with cells holding flattened axis-aligned rectangular polygons,
and checks are values of type `Except String Unit` (`.error` models a raised
`PrecheckFailure` or any other exception caught by the runner, carrying the
exception text).  Checks that only delegate to external engines (magic,
klayout DRC scripts, pin_check) are modelled as input outcomes, since their
behaviour lives outside the repository.
-/

deriving instance DecidableEq for Except

namespace Precheck

/-! ## Text utilities used by power_pin_check -/

/-- Character list of the net name VGND. -/
def vgnd : List Char := ['V', 'G', 'N', 'D']

/-- Character list of the net name VPWR. -/
def vpwr : List Char := ['V', 'P', 'W', 'R']

/-- Character list of the net name VDPWR. -/
def vdpwr : List Char := ['V', 'D', 'P', 'W', 'R']

/-- Character list of the net name VAPWR. -/
def vapwr : List Char := ['V', 'A', 'P', 'W', 'R']

/-- Substring test, the embedding of the Python `pat in s` operator. -/
def containsSub (pat : List Char) : List Char → Bool
  | [] => pat.isEmpty
  | c :: cs => List.isPrefixOf pat (c :: cs) || containsSub pat cs

/-- Embedding of `s.replace("VPWR", "VDPWR")`: every occurrence of VPWR is
rewritten to VDPWR, scanning left to right without rescanning the
replacement text. -/
def replaceVPWR : List Char → List Char
  | [] => []
  | 'V' :: 'P' :: 'W' :: 'R' :: cs => 'V' :: 'D' :: 'P' :: 'W' :: 'R' :: replaceVPWR cs
  | c :: cs => c :: replaceVPWR cs

/-- Scanner for `re.sub("//.*", "", s)`.  The Boolean argument is true while
inside a line comment: such characters are dropped until a newline, which is
kept, exactly as the regex dot does not match a newline. -/
def stripLineAux : Bool → List Char → List Char
  | _, [] => []
  | true, c :: cs => if c = '\n' then c :: stripLineAux false cs else stripLineAux true cs
  | false, '/' :: '/' :: cs => stripLineAux true cs
  | false, c :: cs => c :: stripLineAux false cs

/-- Embedding of `re.sub("//.*", "", s)`. -/
def stripLineComments (s : List Char) : List Char :=
  stripLineAux false s

/-- Index of the first position at which `pat` occurs in `s`. -/
def firstMatchIdx (pat : List Char) : List Char → Option Nat
  | [] => if pat.isEmpty then some 0 else none
  | c :: cs =>
    if List.isPrefixOf pat (c :: cs) then some 0
    else (firstMatchIdx pat cs).map (fun n => n + 1)

/-- Index of the last position at which `pat` occurs in `s`. -/
def lastMatchIdx (pat : List Char) : List Char → Option Nat
  | [] => none
  | c :: cs =>
    match lastMatchIdx pat cs with
    | some n => some (n + 1)
    | none => if List.isPrefixOf pat (c :: cs) then some 0 else none

/-- Embedding of `re.sub("/\\*.*\\*/", "", s, flags=DOTALL|MULTILINE)`.
With DOTALL the greedy `.*` makes the single possible match run from the
first occurrence of the opening delimiter to the last occurrence of the
closing delimiter that starts at least two characters later; if no such
pair exists the text is unchanged, and after the removal no further match
remains. -/
def stripBlockComments (s : List Char) : List Char :=
  match firstMatchIdx ['/', '*'] s with
  | none => s
  | some i =>
    match lastMatchIdx ['*', '/'] (List.drop (i + 2) s) with
    | none => s
    | some j => List.take i s ++ List.drop (i + 2 + j + 2) s

/-! ## power_pin_check (precheck.py lines 141-156) -/

/-- Verilog text as searched by power_pin_check: the VPWR rewrite followed by
line-comment and block-comment stripping (precheck.py lines 144, 148, 149). -/
def processedVerilog (verilog : List Char) : List Char :=
  stripBlockComments (stripLineComments (replaceVPWR verilog))

/-- LEF text as searched by power_pin_check: only the VPWR rewrite is applied
(precheck.py line 145); the comment stripping on lines 148-149 touches the
Verilog text alone. -/
def processedLef (lef : List Char) : List Char :=
  replaceVPWR lef

/-- Body of the inner loop of power_pin_check: raise when the net is present
but unexpected, or absent but expected. -/
def netCheckOne (ft : String) (s : List Char) (pwr : String) (pat : List Char) (ex : Bool) :
    Except String Unit :=
  if containsSub pat s && !ex then .error (ft ++ " contains " ++ pwr)
  else if !(containsSub pat s) && ex then .error (ft ++ " doesn\x27t contain " ++ pwr)
  else .ok ()

/-- Inner loop of power_pin_check over the three supply nets, in source
order: VGND (expected), VDPWR (expected), VAPWR (expected iff uses_3v3). -/
def netChecksFile (ft : String) (s : List Char) (uses_3v3 : Bool) : Except String Unit :=
  match netCheckOne ft s "VGND" vgnd true with
  | .error e => .error e
  | .ok _ =>
    match netCheckOne ft s "VDPWR" vdpwr true with
    | .error e => .error e
    | .ok _ => netCheckOne ft s "VAPWR" vapwr uses_3v3

/-- Embedding of power_pin_check: ensure that VPWR / VGND are present, and
that VAPWR is present if and only if uses_3v3 is set.  The outer loop visits
the Verilog text first, then the LEF text. -/
def power_pin_check (verilog lef : List Char) (uses_3v3 : Bool) : Except String Unit :=
  match netChecksFile "Verilog" (processedVerilog verilog) uses_3v3 with
  | .error e => .error e
  | .ok _ => netChecksFile "LEF" (processedLef lef) uses_3v3

/-- Plain textual search for the three supply nets over already-preprocessed
texts, following the specification wording: no rewriting and no comment
stripping happens here, the texts are searched as given. -/
def searchNets (verilogText lefText : List Char) (uses_3v3 : Bool) : Except String Unit :=
  match netChecksFile "Verilog" verilogText uses_3v3 with
  | .error e => .error e
  | .ok _ => netChecksFile "LEF" lefText uses_3v3

/-- Discriminates the failure outcome of a check. -/
def isErr : Except String Unit → Bool
  | .error _ => true
  | .ok _ => false

/-- Mismatch condition for one file text: ground or primary digital supply
absent, or presence of the extended analog supply different from the
uses_3v3 flag. -/
def netMismatch (s : List Char) (uses_3v3 : Bool) : Prop :=
  containsSub vgnd s = false ∨ containsSub vdpwr s = false ∨ containsSub vapwr s ≠ uses_3v3

/-- Every diagnostic that power_pin_check can raise. -/
def powerPinMessages : List String :=
  [ "Verilog contains VGND", "Verilog doesn\x27t contain VGND",
    "Verilog contains VDPWR", "Verilog doesn\x27t contain VDPWR",
    "Verilog contains VAPWR", "Verilog doesn\x27t contain VAPWR",
    "LEF contains VGND", "LEF doesn\x27t contain VGND",
    "LEF contains VDPWR", "LEF doesn\x27t contain VDPWR",
    "LEF contains VAPWR", "LEF doesn\x27t contain VAPWR" ]

/-! ## Layout model (the gdstk interface) -/

/-- Polygon of the layout model.  The layout accessor is an external
dependency surface; polygons are modelled as axis-aligned rectangles tagged
with their layer and datatype numbers, with rational micron coordinates. -/
structure Poly where
  layer : Nat
  datatype : Nat
  x1 : ℚ
  y1 : ℚ
  x2 : ℚ
  y2 : ℚ
deriving DecidableEq

/-- Cell of the layout model.  `polygons` are the polygons drawn directly in
the cell; `refPolygons` is the geometry contributed by the references the
cell retains, already instantiated, on every layer.  This mirrors the gdstk
interface: `copy` keeps the references, `filter` removes only the polygons
of the cell itself and never recurses into references, `bounding_box`
includes all referenced geometry, and `flatten` moves the referenced
geometry into the cell. -/
structure Cell where
  name : String
  polygons : List Poly
  refPolygons : List Poly
deriving DecidableEq

/-- Library of cells together with the reference edges (parent name, child
name) of the cell hierarchy. -/
structure GDSLib where
  cells : List Cell
  refEdges : List (String × String)
deriving DecidableEq

/-- Embedding of `lib.top_level()`: the cells not instantiated inside any
other cell. -/
def top_level (lib : GDSLib) : List Cell :=
  lib.cells.filter (fun c => !(lib.refEdges.any (fun e => e.2 == c.name)))

/-- Embedding of `cell.filter(spec, False)`: keep exactly the polygons of
the cell itself whose (layer, datatype) pair belongs to `spec`.  The filter
does not recurse into references, so the retained reference geometry is
untouched. -/
def cellFilter (c : Cell) (spec : List (Nat × Nat)) : Cell :=
  ⟨c.name,
   c.polygons.filter (fun p => spec.any (fun ld => ld.1 == p.layer && ld.2 == p.datatype)),
   c.refPolygons⟩

/-- Embedding of `cell.flatten()`: the referenced geometry becomes part of
the cell itself, after which a filter applies to all of it. -/
def cellFlatten (c : Cell) : Cell :=
  ⟨c.name, c.polygons ++ c.refPolygons, []⟩

/-- Bounding box with exact rational corner coordinates. -/
structure BBox where
  xmin : ℚ
  ymin : ℚ
  xmax : ℚ
  ymax : ℚ
deriving DecidableEq

/-- Bounding box of a single polygon. -/
def polyBBox (p : Poly) : BBox :=
  ⟨min p.x1 p.x2, min p.y1 p.y2, max p.x1 p.x2, max p.y1 p.y2⟩

/-- Smallest box containing two boxes. -/
def bboxJoin (a b : BBox) : BBox :=
  ⟨min a.xmin b.xmin, min a.ymin b.ymin, max a.xmax b.xmax, max a.ymax b.ymax⟩

/-- Embedding of `cell.bounding_box()`: none for an empty cell, otherwise
the join of the boxes of the polygons of the cell itself and of all the
geometry contributed by its retained references. -/
def cellBBox (c : Cell) : Option BBox :=
  (c.polygons ++ c.refPolygons).foldl
    (fun acc p =>
      match acc with
      | none => some (polyBBox p)
      | some b => some (bboxJoin b (polyBBox p)))
    none

/-! ## boundary_check (precheck.py lines 128-138) -/

/-- Embedding of boundary_check: ensure that there are no shapes outside the
project area.  The top level must be unique; the bounding box of the top
cell must coincide exactly with the bounding box of an unflattened copy
filtered to the prBoundary layer (235, 4).  The copy keeps its references,
so the filter restricts only the polygons drawn directly in the top cell
while all referenced geometry stays in the compared bounding box. -/
def boundary_check (lib : GDSLib) : Except String Unit :=
  match top_level lib with
  | [top] =>
    if cellBBox top ≠ cellBBox (cellFilter top [(235, 4)]) then
      .error "Shapes outside project area"
    else .ok ()
  | _ => .error "GDS top level not unique"

/-- Bounding box of the subset of the full polygon set of a cell restricted
to a layer list, following the specification wording for the boundary
check: here the restriction applies to the referenced geometry as well,
which is what filtering a flattened copy would give.  The source filters an
unflattened copy instead, so this definition is compared against
`boundary_check` rather than used by it. -/
def restrictedBBox (c : Cell) (spec : List (Nat × Nat)) : Option BBox :=
  cellBBox (cellFilter (cellFlatten c) spec)

/-! ## layer_check and cell_name_check (precheck.py lines 159-178) -/

/-- Embedding of `lib.layers_and_datatypes()` over the whole library (text
labels are not part of the polygon model). -/
def layersAndDatatypes (lib : GDSLib) : List (Nat × Nat) :=
  (lib.cells.map (fun c => c.polygons.map (fun p => (p.layer, p.datatype)))).flatten

/-- Embedding of layer_check: check that there are no invalid layers in the
GDS file.  The valid set is technology data supplied from outside. -/
def layer_check (lib : GDSLib) (valid : List (Nat × Nat)) : Except String Unit :=
  let excess := (layersAndDatatypes lib).filter (fun ld => !(valid.contains ld))
  if excess.isEmpty then .ok ()
  else .error ("Invalid layers in GDS: " ++ toString excess)

/-- Embedding of cell_name_check over the raw cell list: no cell name may
contain the characters # or /. -/
def cell_name_check : List Cell → Except String Unit
  | [] => .ok ()
  | c :: cs =>
    if c.name.toList.contains '#' then
      .error ("Cell name " ++ c.name ++ " contains invalid character \x27#\x27")
    else if c.name.toList.contains '/' then
      .error ("Cell_name " ++ c.name ++ " contains invalid character \x27/\x27")
    else cell_name_check cs

/-! ## analog_pin_check (precheck.py lines 189-244) -/

/-- Technology data consumed by analog_pin_check: the (layer, datatype)
pairs of the met4 and via3 layers and the per-pin x position function, the
counterparts of `layer_map[tech]` and `analog_pin_pos[tech]` from the
technology tables. -/
structure TechData where
  met4 : Nat × Nat
  via3 : Nat × Nat
  pinPos : Nat → Bool → ℚ

/-- Positive-area overlap of two axis-aligned rectangles, the emptiness test
of the gdstk boolean "and" of the two shapes. -/
def rectOverlaps (p r : Poly) : Bool :=
  decide (max (min p.x1 p.x2) (min r.x1 r.x2) < min (max p.x1 p.x2) (max r.x1 r.x2)) &&
  decide (max (min p.y1 p.y2) (min r.y1 r.y2) < min (max p.y1 p.y2) (max r.y1 r.y2))

/-- Rectangle constructor for the probe regions (no layer tag is relevant). -/
def probeRect (x1 y1 x2 y2 : ℚ) : Poly :=
  ⟨0, 0, x1, y1, x2, y2⟩

/-- Non-emptiness of the intersection of a polygon list with a rectangle. -/
def anyOverlap (polys : List Poly) (r : Poly) : Bool :=
  polys.any (fun p => rectOverlaps p r)

/-- Connectivity of one pin slot, precheck.py lines 205-225: the x position
selects a 0.9 x 1.0 probe rectangle, and the slot is connected when the via3
view meets the probe or the met4 view meets one of the four adjacent
rectangles (above, below, left, right). -/
def connectedAt (met4p via3p : List Poly) (x : ℚ) : Bool :=
  let x1 := x
  let y1 : ℚ := 0
  let x2 := x + 9/10
  let y2 : ℚ := 1
  anyOverlap via3p (probeRect x1 y1 x2 y2)
  || anyOverlap met4p (probeRect x1 (y2 + 1/10) x2 (y2 + 1/2))
  || anyOverlap met4p (probeRect x1 (y1 - 1/2) x2 (y1 - 1/10))
  || anyOverlap met4p (probeRect (x1 - 1/2) y1 (x1 - 1/10) y2)
  || anyOverlap met4p (probeRect (x2 + 1/10) y1 (x2 + 1/2) y2)

/-- met4 view of the top cell: a copy is flattened and then filtered to the
met4 layer, so the filter applies to the referenced geometry as well. -/
def met4View (tech : TechData) (top : Cell) : List Poly :=
  (cellFilter (cellFlatten top) [tech.met4]).polygons

/-- via3 view of the top cell: a copy is flattened and then filtered to the
via3 layer. -/
def via3View (tech : TechData) (top : Cell) : List Poly :=
  (cellFilter (cellFlatten top) [tech.via3]).polygons

/-- Embedding of `pinout.get(key, "")` over an association list. -/
def pinoutGet (pinout : List (String × String)) (key : String) : String :=
  match pinout.find? (fun kv => kv.1 == key) with
  | some kv => kv.2
  | none => ""

/-- Key `ua[pin]` of the pinout mapping. -/
def uaKey (pin : Nat) : String :=
  "ua[" ++ toString pin ++ "]"

/-- Connectivity of slot `pin` as computed by the check. -/
def slotConnected (met4p via3p : List Poly) (pinPos : Nat → Bool → ℚ) (uses_3v3 : Bool)
    (pin : Nat) : Bool :=
  connectedAt met4p via3p (pinPos pin uses_3v3)

/-- Expectation from the analog pin count: `pin < analog_pins`. -/
def slotExpectedCount (analog_pins : Int) (pin : Nat) : Bool :=
  decide ((pin : Int) < analog_pins)

/-- Expectation from the pinout mapping: `bool(pinout.get(f"ua[{pin}]", ""))`,
the truthiness of the role string. -/
def slotExpectedPinout (pinout : List (String × String)) (pin : Nat) : Bool :=
  !(pinoutGet pinout (uaKey pin) == "")

/-- Disagreement of a slot: its connectivity differs from the count bound or
from the pinout truthiness. -/
def slotDisagrees (met4p via3p : List Poly) (pinPos : Nat → Bool → ℚ) (uses_3v3 : Bool)
    (analog_pins : Int) (pinout : List (String × String)) (pin : Nat) : Bool :=
  (slotConnected met4p via3p pinPos uses_3v3 pin != slotExpectedCount analog_pins pin)
  || (slotConnected met4p via3p pinPos uses_3v3 pin != slotExpectedPinout pinout pin)

/-- Diagnostic chosen for a disagreeing slot, in the branch order of the
source: the analog_pins diagnostics take priority over the pinout ones. -/
def slotDiag (met4p via3p : List Poly) (pinPos : Nat → Bool → ℚ) (uses_3v3 : Bool)
    (analog_pins : Int) (pinout : List (String × String)) (pin : Nat) : String :=
  let connected := slotConnected met4p via3p pinPos uses_3v3 pin
  let expected_pc := slotExpectedCount analog_pins pin
  let expected_pd := slotExpectedPinout pinout pin
  if connected && !expected_pc then
    "Analog pin " ++ toString pin ++ " connected but `analog_pins` is " ++ toString analog_pins
  else if connected && !expected_pd then
    "Analog pin " ++ toString pin ++ " connected but `pinout.ua[" ++ toString pin ++ "]` is falsy"
  else if !connected && expected_pc then
    "Analog pin " ++ toString pin ++ " not connected but `analog_pins` is " ++ toString analog_pins
  else
    "Analog pin " ++ toString pin ++ " not connected but `pinout.ua[" ++ toString pin ++ "]` is truthy"

/-- Body of the per-pin loop of analog_pin_check, raising the first matching
branch among the four disagreement cases. -/
def checkPin (met4p via3p : List Poly) (pinPos : Nat → Bool → ℚ) (uses_3v3 : Bool)
    (analog_pins : Int) (pinout : List (String × String)) (pin : Nat) : Except String Unit :=
  let connected := slotConnected met4p via3p pinPos uses_3v3 pin
  let expected_pc := slotExpectedCount analog_pins pin
  let expected_pd := slotExpectedPinout pinout pin
  if connected && !expected_pc then
    .error ("Analog pin " ++ toString pin ++ " connected but `analog_pins` is " ++ toString analog_pins)
  else if connected && !expected_pd then
    .error ("Analog pin " ++ toString pin ++ " connected but `pinout.ua[" ++ toString pin ++ "]` is falsy")
  else if !connected && expected_pc then
    .error ("Analog pin " ++ toString pin ++ " not connected but `analog_pins` is " ++ toString analog_pins)
  else if !connected && expected_pd then
    .error ("Analog pin " ++ toString pin ++ " not connected but `pinout.ua[" ++ toString pin ++ "]` is truthy")
  else .ok ()

/-- Sequential execution of the per-pin loop: stop at the first raised
failure. -/
def runPins (f : Nat → Except String Unit) : List Nat → Except String Unit
  | [] => .ok ()
  | p :: ps =>
    match f p with
    | .ok _ => runPins f ps
    | .error e => .error e

/-- Embedding of analog_pin_check: check that every analog pin connects to a
piece of metal if and only if the pin is used according to info.yaml.  When
is_analog is false the body is skipped entirely.  The source indexes
`lib.top_level()[0]`, so an empty top level raises the usual Python
IndexError text. -/
def analog_pin_check (lib : GDSLib) (tech : TechData) (is_analog : Bool) (uses_3v3 : Bool)
    (analog_pins : Int) (pinout : List (String × String)) : Except String Unit :=
  if is_analog then
    match top_level lib with
    | [] => .error "list index out of range"
    | top :: _ =>
      runPins
        (checkPin (met4View tech top) (via3View tech top) tech.pinPos uses_3v3 analog_pins pinout)
        (List.range 8)
  else .ok ()

/-! ## Pipeline runner and report (precheck.py lines 335-376) -/

/-- Result record of one check: name, status, diagnostic (empty on pass) and
elapsed wall-clock time. -/
structure CheckResult where
  name : String
  passed : Bool
  diagnostic : String
  elapsed : ℚ
deriving DecidableEq

/-- Result of the fault boundary around one check: a normal return records a
pass, any raised exception records a fail carrying the exception text. -/
def mkResult (t : ℚ) (c : String × Except String Unit) : CheckResult :=
  match c.2 with
  | .ok _ => ⟨c.1, true, "", t⟩
  | .error e => ⟨c.1, false, e, t⟩

/-- Runner loop from position `k`: the time oracle gives the elapsed time of
the check at each position. -/
def runChecksFrom (times : Nat → ℚ) : Nat → List (String × Except String Unit) → List CheckResult
  | _, [] => []
  | k, c :: cs => mkResult (times k) c :: runChecksFrom times (k + 1) cs

/-- Embedding of the runner loop of main: every declared check is executed
once, in order, inside the fault boundary. -/
def runChecks (times : Nat → ℚ) (checks : List (String × Except String Unit)) :
    List CheckResult :=
  runChecksFrom times 0 checks

/-- Timing-independent view of a result record. -/
def observable (r : CheckResult) : String × Bool × String :=
  (r.name, r.passed, r.diagnostic)

/-- Testcase of the structured xunit report: name, elapsed time, and the
error message when failed. -/
structure TestCase where
  name : String
  time : ℚ
  errorMessage : Option String
deriving DecidableEq

/-- Embedding of the xunit testsuite built by the runner loop: one testcase
per result, an error element exactly on failure. -/
def xunitCases (rs : List CheckResult) : List TestCase :=
  rs.map (fun r => ⟨r.name, r.elapsed, if r.passed then none else some r.diagnostic⟩)

/-- Markdown table row of one result. -/
def mdRow (r : CheckResult) : String :=
  if r.passed then "| " ++ r.name ++ " | ✅ |\n"
  else "| " ++ r.name ++ " | ❌ Fail: " ++ r.diagnostic ++ " |\n"

/-- Full markdown report: header, one row per result, footer. -/
def markdownReport (rs : List CheckResult) : String :=
  "# Tiny Tapeout Precheck Results\n\n| Check | Result |\n|-----------|--------|\n"
  ++ String.join (rs.map mdRow)
  ++ "\nIn case of failure, please reach out on [discord](https://tinytapeout.com/discord) for assistance."

/-- Number of failed results, the `error_count` accumulator of main. -/
def errorCount (rs : List CheckResult) : Nat :=
  rs.countP (fun r => !r.passed)

/-- Process exit status derived from the report: 1 when any check failed,
otherwise 0. -/
def exitCode (rs : List CheckResult) : Nat :=
  if 0 < errorCount rs then 1 else 0

/-! ## main (precheck.py lines 284-376, from the loaded metadata onward) -/

/-- Inputs of one pipeline run: the metadata fields read from info.yaml, the
layout, the sibling text files, the technology data, and the outcomes of the
checks that delegate to external engines. -/
structure PipelineInputs where
  analogPins : Int
  uses3v3 : Bool
  pinout : List (String × String)
  lib : GDSLib
  verilog : List Char
  lef : List Char
  tech : TechData
  validLayers : List (Nat × Nat)
  magicDrcResult : Except String Unit
  klayoutFeolResult : Except String Unit
  klayoutBeolResult : Except String Unit
  klayoutOffgridResult : Except String Unit
  klayoutPinLabelResult : Except String Unit
  klayoutZeroAreaResult : Except String Unit
  klayoutChecksResult : Except String Unit
  pinCheckResult : Except String Unit
  urpmNwellResult : Except String Unit

/-- Declared check battery of main, in source order (precheck.py lines
303-333).  `is_analog` is `analog_pins > 0` as computed on line 285. -/
def mainChecks (i : PipelineInputs) : List (String × Except String Unit) :=
  [ ("Magic DRC", i.magicDrcResult),
    ("KLayout FEOL", i.klayoutFeolResult),
    ("KLayout BEOL", i.klayoutBeolResult),
    ("KLayout offgrid", i.klayoutOffgridResult),
    ("KLayout pin label overlapping drawing", i.klayoutPinLabelResult),
    ("KLayout zero area", i.klayoutZeroAreaResult),
    ("KLayout Checks", i.klayoutChecksResult),
    ("Pin check", i.pinCheckResult),
    ("Boundary check", boundary_check i.lib),
    ("Power pin check", power_pin_check i.verilog i.lef i.uses3v3),
    ("Layer check", layer_check i.lib i.validLayers),
    ("Cell name check", cell_name_check i.lib.cells),
    ("urpm/nwell check", i.urpmNwellResult),
    ("Analog pin check",
      analog_pin_check i.lib i.tech (decide (0 < i.analogPins)) i.uses3v3 i.analogPins i.pinout) ]

/-- Embedding of main from the loaded metadata onward: the uses_3v3
precondition aborts before the battery (line 288-289); otherwise the battery
runs to completion and the exit status is derived from the report. -/
def mainRun (times : Nat → ℚ) (i : PipelineInputs) :
    Except String (List CheckResult × Nat) :=
  if i.uses3v3 && !(decide (0 < i.analogPins)) then
    .error "Projects with 3v3 power need at least one analog pin"
  else
    let rs := runChecks times (mainChecks i)
    .ok (rs, exitCode rs)

/-! ## Concrete instances used by witnesses and counterexamples -/

/-- Technology data instance: met4 and via3 layer pairs and pin slots spaced
20 microns apart. -/
def sampleTech : TechData :=
  ⟨(71, 20), (70, 44), fun pin _ => (pin : ℚ) * 20⟩

/-- Well-formed single-cell library: a boundary rectangle on (235, 4) and a
metal rectangle inside it. -/
def sampleLib : GDSLib :=
  ⟨[⟨"tt_um_sample", [⟨235, 4, 0, 0, 10, 10⟩, ⟨68, 20, 1, 1, 9, 9⟩], []⟩], []⟩

/-- Verilog text with both required supply nets and no extended supply. -/
def sampleVerilog : List Char :=
  "module tt_um_sample VGND VDPWR endmodule".toList

/-- LEF text with both required supply nets and no extended supply. -/
def sampleLef : List Char :=
  "MACRO tt_um_sample PIN VGND PIN VDPWR END".toList

/-- Pipeline inputs with the given metadata, library and magic outcome; all
other external engine outcomes pass. -/
def mkInputs (ap : Int) (u3 : Bool) (lib : GDSLib) (ver lef : List Char)
    (magic : Except String Unit) : PipelineInputs :=
  ⟨ap, u3, [], lib, ver, lef, sampleTech, [(235, 4), (68, 20)],
   magic, .ok (), .ok (), .ok (), .ok (), .ok (), .ok (), .ok (), .ok ()⟩

/-- Library with two top-level cells. -/
def twoTopLib : GDSLib :=
  ⟨[⟨"tt_um_a", [], []⟩, ⟨"tt_um_b", [], []⟩], []⟩

/-- Pipeline inputs whose layout has two top-level cells. -/
def twoTopInputs : PipelineInputs :=
  mkInputs 0 false twoTopLib sampleVerilog sampleLef (.ok ())

/-- Analog layout for the two-connected-slots scenario: met4 rectangles over
the above-probe regions of slots 0 and 1 (slots are 20 microns apart under
`sampleTech`), nothing at slots 2 to 7. -/
def analogTop : Cell :=
  ⟨"tt_um_analog", [⟨71, 20, 0, 6/5, 1/2, 13/10⟩, ⟨71, 20, 20, 6/5, 41/2, 13/10⟩], []⟩

/-- Library holding `analogTop` alone. -/
def analogLib : GDSLib :=
  ⟨[analogTop], []⟩

/-- Pinout marking slots 0 and 1 as used. -/
def analogPinout : List (String × String) :=
  [("ua[0]", "analog in"), ("ua[1]", "analog out")]

/-- Analog layout with met4 only over the above-probe region of slot 0. -/
def analogTopOne : Cell :=
  ⟨"tt_um_analog_one", [⟨71, 20, 0, 6/5, 1/2, 13/10⟩], []⟩

/-- Library holding `analogTopOne` alone. -/
def analogLibOne : GDSLib :=
  ⟨[analogTopOne], []⟩

/-- Hierarchical layout: the top cell draws only the boundary rectangle on
(235, 4) and retains reference geometry that reaches one unit beyond the
boundary extent. -/
def hierTop : Cell :=
  ⟨"tt_um_hier", [⟨235, 4, 0, 0, 10, 10⟩], [⟨68, 20, 1, 1, 11, 9⟩]⟩

/-- Library holding `hierTop` alone. -/
def hierLib : GDSLib :=
  ⟨[hierTop], []⟩

/-! ## Lemmas about the runner -/

theorem mkResult_name (t : ℚ) (c : String × Except String Unit) : (mkResult t c).name = c.1 := by
  cases c with
  | mk n o => cases o <;> rfl

theorem observable_mkResult (t t' : ℚ) (c : String × Except String Unit) :
    observable (mkResult t c) = observable (mkResult t' c) := by
  cases c with
  | mk n o => cases o <;> rfl

theorem runChecksFrom_length (times : Nat → ℚ) (cs : List (String × Except String Unit)) :
    ∀ k, (runChecksFrom times k cs).length = cs.length := by
  induction cs with
  | nil => intro k; rfl
  | cons c cs ih => intro k; simp [runChecksFrom, ih]

theorem runChecksFrom_map_name (times : Nat → ℚ) (cs : List (String × Except String Unit)) :
    ∀ k, (runChecksFrom times k cs).map CheckResult.name = cs.map Prod.fst := by
  induction cs with
  | nil => intro k; rfl
  | cons c cs ih => intro k; simp [runChecksFrom, mkResult_name, ih]

theorem runChecksFrom_getElem? (times : Nat → ℚ) (cs : List (String × Except String Unit)) :
    ∀ k i, (runChecksFrom times k cs)[i]? = (cs[i]?).map (fun c => mkResult (times (k + i)) c) := by
  induction cs with
  | nil => intro k i; simp [runChecksFrom]
  | cons c cs ih =>
    intro k i
    cases i with
    | zero => simp [runChecksFrom]
    | succ i =>
      have h := ih (k + 1) i
      have harith : k + 1 + i = k + (i + 1) := by omega
      rw [harith] at h
      simpa [runChecksFrom] using h

theorem runChecksFrom_observable (t₁ t₂ : Nat → ℚ) (cs : List (String × Except String Unit)) :
    ∀ k₁ k₂, (runChecksFrom t₁ k₁ cs).map observable = (runChecksFrom t₂ k₂ cs).map observable := by
  induction cs with
  | nil => intro k₁ k₂; rfl
  | cons c cs ih =>
    intro k₁ k₂
    simp only [runChecksFrom, List.map_cons, List.cons.injEq]
    exact ⟨observable_mkResult _ _ c, ih _ _⟩

theorem errorCount_pos_iff (rs : List CheckResult) :
    0 < errorCount rs ↔ ∃ r ∈ rs, r.passed = false := by
  simp [errorCount, List.countP_pos_iff]

theorem errorCount_eq_zero_of (rs : List CheckResult) (h : ∀ r ∈ rs, r.passed = true) :
    errorCount rs = 0 := by
  simp only [errorCount, List.countP_eq_zero]
  intro r hr
  simp [h r hr]

/-! ## Claim theorems: pipeline runner -/

/-- Claim C1: every run that reaches the check battery produces exactly one
result record per declared check, in declaration order, in both the
structured test-result document and the markdown summary, and the record at
each position is determined by that position alone, so no failure of an
earlier check prevents a later check from executing and being recorded. -/
theorem runner_one_result_per_check (times : Nat → ℚ)
    (checks : List (String × Except String Unit)) :
    ((runChecks times checks).map CheckResult.name = checks.map Prod.fst)
    ∧ ((xunitCases (runChecks times checks)).map TestCase.name = checks.map Prod.fst)
    ∧ (((runChecks times checks).map mdRow).length = checks.length)
    ∧ (∀ i : Nat, (runChecks times checks)[i]? = (checks[i]?).map (fun c => mkResult (times i) c))
    ∧ (∀ i : Nat, ((runChecks times checks).map mdRow)[i]?
        = (checks[i]?).map (fun c => mdRow (mkResult (times i) c))) := by
  have hget : ∀ i : Nat, (runChecks times checks)[i]?
      = (checks[i]?).map (fun c => mkResult (times i) c) := by
    intro i
    simpa using runChecksFrom_getElem? times checks 0 i
  refine ⟨runChecksFrom_map_name times checks 0, ?_, ?_, hget, ?_⟩
  · have h := runChecksFrom_map_name times checks 0
    simpa [xunitCases, List.map_map, Function.comp] using h
  · simp [List.length_map, runChecks, runChecksFrom_length]
  · intro i
    rw [List.getElem?_map, hget i]
    cases checks[i]? <;> rfl

/-- Claim C2: for a run that finishes the battery, the derived exit status is
non-zero exactly when some result record has failed status, and it is zero
when every check completed normally. -/
theorem exit_status_iff_failure (times : Nat → ℚ) (i : PipelineInputs)
    (rs : List CheckResult) (code : Nat) (h : mainRun times i = .ok (rs, code)) :
    (code ≠ 0 ↔ ∃ r ∈ rs, r.passed = false) ∧ ((∀ r ∈ rs, r.passed = true) → code = 0) := by
  unfold mainRun at h
  split at h
  · exact absurd h (by simp)
  · have hrs : rs = runChecks times (mainChecks i) ∧ code = exitCode (runChecks times (mainChecks i)) := by
      have := h
      simp only [Except.ok.injEq, Prod.mk.injEq] at this
      exact ⟨this.1.symm, this.2.symm⟩
    obtain ⟨h1, h2⟩ := hrs
    subst h1
    subst h2
    constructor
    · have hx : exitCode (runChecks times (mainChecks i)) ≠ 0
          ↔ 0 < errorCount (runChecks times (mainChecks i)) := by
        unfold exitCode
        by_cases hpos : 0 < errorCount (runChecks times (mainChecks i)) <;> simp [hpos]
      rw [hx, errorCount_pos_iff]
    · intro hall
      simp [exitCode, errorCount_eq_zero_of _ hall]

/-- Claim C2 witness: a run whose Magic DRC outcome fails yields a failed
record, obtained through the exit-status characterisation at exit code 1. -/
theorem exit_status_iff_failure_witness :
    ∃ r ∈ runChecks (fun _ => 0)
        (mainChecks (mkInputs 0 false sampleLib sampleVerilog sampleLef (.error "Magic DRC failed"))),
      r.passed = false :=
  (exit_status_iff_failure (fun _ => 0)
    (mkInputs 0 false sampleLib sampleVerilog sampleLef (.error "Magic DRC failed"))
    _ _ rfl).1.mp (by decide)

/-- Claim C8: with the full input set fixed (metadata, layout, sibling files,
technology data and external-engine outcomes), two executions of the battery
produce the same sequence of names, statuses and diagnostics; only the
elapsed times, fed by the timing oracle, may differ. -/
theorem pipeline_idempotent (i₁ i₂ : PipelineInputs) (t₁ t₂ : Nat → ℚ) (h : i₁ = i₂) :
    (runChecks t₁ (mainChecks i₁)).map observable
      = (runChecks t₂ (mainChecks i₂)).map observable := by
  subst h
  exact runChecksFrom_observable t₁ t₂ (mainChecks i₁) 0 0

/-- Claim C8 witness: two runs of the sample project under different timing
oracles agree on every name, status and diagnostic. -/
theorem pipeline_idempotent_witness :
    (runChecks (fun _ => 0) (mainChecks (mkInputs 0 false sampleLib sampleVerilog sampleLef (.ok ())))).map observable
      = (runChecks (fun _ => 1) (mainChecks (mkInputs 0 false sampleLib sampleVerilog sampleLef (.ok ())))).map observable :=
  pipeline_idempotent _ _ _ _ rfl

/-- Claim C9: a project declaring uses_3v3 with zero analog pins aborts with
the fatal precondition failure before any check executes, so the run yields
no report records. -/
theorem uses_3v3_requires_analog (times : Nat → ℚ) (i : PipelineInputs)
    (h3 : i.uses3v3 = true) (h0 : i.analogPins = 0) :
    mainRun times i = .error "Projects with 3v3 power need at least one analog pin" := by
  simp [mainRun, h3, h0]

/-- Claim C9 witness: the abort at a concrete 3v3 project with zero analog
pins. -/
theorem uses_3v3_requires_analog_witness :
    mainRun (fun _ => 0) (mkInputs 0 true sampleLib sampleVerilog sampleLef (.ok ()))
      = .error "Projects with 3v3 power need at least one analog pin" :=
  uses_3v3_requires_analog (fun _ => 0) _ rfl rfl

/-! ## Boundary check lemmas and claims C3, C6 -/

theorem boundary_check_not_unique (lib : GDSLib) (h : (top_level lib).length ≠ 1) :
    boundary_check lib = .error "GDS top level not unique" := by
  rcases htl : top_level lib with _ | ⟨t, _ | ⟨u, r⟩⟩
  · simp [boundary_check, htl]
  · exact absurd (by simp [htl]) h
  · simp [boundary_check, htl]

/-- Claim C3 counterexample: a layout with two top-level cells is not
rejected before the battery; the run completes, the ambiguity surfaces as
the per-check failure of the ninth check (Boundary check), and later checks
such as the fourteenth (Analog pin check) still execute and are recorded. -/
theorem multi_top_not_aborted_counterexample :
    (top_level twoTopLib).length = 2
    ∧ mainRun (fun _ => 0) twoTopInputs
        = .ok (runChecks (fun _ => 0) (mainChecks twoTopInputs),
               exitCode (runChecks (fun _ => 0) (mainChecks twoTopInputs)))
    ∧ (runChecks (fun _ => 0) (mainChecks twoTopInputs))[8]?
        = some ⟨"Boundary check", false, "GDS top level not unique", 0⟩
    ∧ (runChecks (fun _ => 0) (mainChecks twoTopInputs))[13]?
        = some ⟨"Analog pin check", true, "", 0⟩ :=
  ⟨by decide, rfl, by decide, by decide⟩

/-- Claim C3 (amended): when the top level of the layout is not unique and
the 3v3 precondition passes, the run is not aborted: the battery completes,
fourteen records are produced, and the ambiguity is recorded as the failure
of the ninth record (Boundary check) with the diagnostic of the raised
check failure. -/
theorem multi_top_recorded_as_check (times : Nat → ℚ) (i : PipelineInputs)
    (hpre : ¬(i.uses3v3 = true ∧ i.analogPins ≤ 0))
    (htop : (top_level i.lib).length ≠ 1) :
    mainRun times i = .ok (runChecks times (mainChecks i), exitCode (runChecks times (mainChecks i)))
    ∧ (runChecks times (mainChecks i)).length = 14
    ∧ (runChecks times (mainChecks i))[8]?
        = some ⟨"Boundary check", false, "GDS top level not unique", times 8⟩ := by
  have hb := boundary_check_not_unique i.lib htop
  have hc : (i.uses3v3 && !(decide (0 < i.analogPins))) = false := by
    rcases h3 : i.uses3v3
    · simp
    · simp only [h3, Bool.true_and]
      have : 0 < i.analogPins := by
        by_contra hle
        exact hpre ⟨h3, by omega⟩
      simp [this]
  refine ⟨by simp [mainRun, hc], by simp [runChecks, runChecksFrom_length, mainChecks], ?_⟩
  have hg := runChecksFrom_getElem? times (mainChecks i) 0 8
  rw [runChecks, hg]
  have h8 : (mainChecks i)[8]? = some ("Boundary check", boundary_check i.lib) := by
    simp [mainChecks]
  rw [h8]
  simp [mkResult, hb]

/-- Claim C3 (amended) witness: the amended statement instantiated at the
two-top-cell project. -/
theorem multi_top_recorded_as_check_witness :
    (runChecks (fun _ => 0) (mainChecks twoTopInputs))[8]?
      = some ⟨"Boundary check", false, "GDS top level not unique", 0⟩ :=
  (multi_top_recorded_as_check (fun _ => 0) twoTopInputs (by decide) (by decide)).2.2

/-- Claim C6 counterexample: a hierarchical layout with a unique top cell
whose only out-of-boundary polygon lives in retained reference geometry.
The bounding box of the full polygon set differs from the bounding box of
the subset restricted to the project-boundary layer (first conjunct), so
the claim says the check fails, yet the check passes (last conjunct): the
source filters an unflattened copy whose references keep all-layer subcell
geometry in the compared bounding box. -/
theorem boundary_check_hier_counterexample :
    cellBBox hierTop ≠ restrictedBBox hierTop [(235, 4)]
    ∧ hierTop.refPolygons ≠ []
    ∧ top_level hierLib = [hierTop]
    ∧ boundary_check hierLib = .ok () :=
  ⟨by decide, by decide, by decide, by decide⟩

/-- Claim C6 (amended): for a layout with a unique top-level cell, the
boundary check fails exactly when the bounding box of the full geometry
differs from the bounding box of the unflattened copy in which only the
polygons drawn directly in the top cell are restricted to the
project-boundary layer (235, 4) while all retained reference geometry stays
in the box; the comparison is exact coordinate equality.  For a top cell
without retained reference geometry this coincides with restricting the
full polygon set, as the original claim reads. -/
theorem boundary_check_iff (lib : GDSLib) (top : Cell) (h : top_level lib = [top]) :
    (boundary_check lib = .error "Shapes outside project area"
      ↔ cellBBox top ≠ cellBBox (cellFilter top [(235, 4)]))
    ∧ (boundary_check lib = .ok ()
      ↔ cellBBox top = cellBBox (cellFilter top [(235, 4)]))
    ∧ (top.refPolygons = [] →
       (boundary_check lib = .ok () ↔ cellBBox top = restrictedBBox top [(235, 4)])) := by
  refine ⟨?_, ?_, ?_⟩
  · by_cases hbb : cellBBox top = cellBBox (cellFilter top [(235, 4)]) <;>
      simp [boundary_check, h, hbb]
  · by_cases hbb : cellBBox top = cellBBox (cellFilter top [(235, 4)]) <;>
      simp [boundary_check, h, hbb]
  · intro hflat
    have heq : restrictedBBox top [(235, 4)] = cellBBox (cellFilter top [(235, 4)]) := by
      simp [restrictedBBox, cellFlatten, cellFilter, cellBBox, hflat]
    rw [heq]
    by_cases hbb : cellBBox top = cellBBox (cellFilter top [(235, 4)]) <;>
      simp [boundary_check, h, hbb]

/-- Claim C6 (amended) witness: a flat layout whose geometry stays inside
the boundary extent passes (through the no-reference-geometry reading), and
the same layout with the metal polygon, drawn directly in the top cell,
stretched one unit beyond the boundary extent fails. -/
theorem boundary_check_iff_witness :
    boundary_check sampleLib = .ok ()
    ∧ boundary_check ⟨[⟨"tt_um_bad", [⟨235, 4, 0, 0, 10, 10⟩, ⟨68, 20, 1, 1, 11, 9⟩], []⟩], []⟩
        = .error "Shapes outside project area" :=
  ⟨((boundary_check_iff sampleLib _ rfl).2.2 rfl).mpr (by decide),
   (boundary_check_iff ⟨[⟨"tt_um_bad", [⟨235, 4, 0, 0, 10, 10⟩, ⟨68, 20, 1, 1, 11, 9⟩], []⟩], []⟩
     _ rfl).1.mpr (by decide)⟩

/-! ## Power pin check lemmas and claims C4, C5, C10 -/

theorem isErr_false_iff (x : Except String Unit) : isErr x = false ↔ x = .ok () := by
  cases x with
  | ok u => cases u; simp [isErr]
  | error e => simp [isErr]

theorem netChecksFile_isErr (ft : String) (s : List Char) (u3 : Bool) :
    isErr (netChecksFile ft s u3) = true ↔ netMismatch s u3 := by
  unfold netChecksFile netCheckOne netMismatch
  cases h1 : containsSub vgnd s <;> cases h2 : containsSub vdpwr s <;>
    cases h3 : containsSub vapwr s <;> cases u3 <;> simp [isErr]

theorem power_pin_isErr_eq (v l : List Char) (u3 : Bool) :
    isErr (power_pin_check v l u3)
      = (isErr (netChecksFile "Verilog" (processedVerilog v) u3)
        || isErr (netChecksFile "LEF" (processedLef l) u3)) := by
  unfold power_pin_check
  cases h : netChecksFile "Verilog" (processedVerilog v) u3 <;> simp [isErr, h]

theorem netChecksFile_error_mem (ft : String) (s : List Char) (u3 : Bool) (e : String)
    (h : netChecksFile ft s u3 = .error e) :
    e = ft ++ " contains " ++ "VGND" ∨ e = ft ++ " doesn\x27t contain " ++ "VGND"
    ∨ e = ft ++ " contains " ++ "VDPWR" ∨ e = ft ++ " doesn\x27t contain " ++ "VDPWR"
    ∨ e = ft ++ " contains " ++ "VAPWR" ∨ e = ft ++ " doesn\x27t contain " ++ "VAPWR" := by
  unfold netChecksFile netCheckOne at h
  cases h1 : containsSub vgnd s <;> cases h2 : containsSub vdpwr s <;>
    cases h3 : containsSub vapwr s <;> cases u3 <;>
      simp [h1, h2, h3] at h <;> simp [h]

/-- Claim C4: the power pin check fails exactly when, in the Verilog text as
searched (rewritten and comment-stripped) or in the LEF text as searched
(rewritten only), VGND or VDPWR is absent or the presence of VAPWR differs
from the uses_3v3 flag; with unchanged files, a passing run flips to a
failing one when the flag is flipped, and when both required nets are
present in both texts and the VAPWR presence agrees between the two texts,
the check passes exactly when the flag equals that presence, so flipping
the flag flips the outcome. -/
theorem power_pin_check_iff (v l : List Char) (u3 : Bool) :
    (isErr (power_pin_check v l u3) = true
      ↔ (netMismatch (processedVerilog v) u3 ∨ netMismatch (processedLef l) u3))
    ∧ (power_pin_check v l u3 = .ok () → isErr (power_pin_check v l (!u3)) = true)
    ∧ (containsSub vgnd (processedVerilog v) = true →
       containsSub vdpwr (processedVerilog v) = true →
       containsSub vgnd (processedLef l) = true →
       containsSub vdpwr (processedLef l) = true →
       containsSub vapwr (processedVerilog v) = containsSub vapwr (processedLef l) →
       (power_pin_check v l u3 = .ok () ↔ containsSub vapwr (processedVerilog v) = u3)) := by
  have hmain : ∀ b : Bool, isErr (power_pin_check v l b) = true
      ↔ (netMismatch (processedVerilog v) b ∨ netMismatch (processedLef l) b) := by
    intro b
    rw [power_pin_isErr_eq]
    simp [Bool.or_eq_true, netChecksFile_isErr]
  have hok_iff : ∀ b : Bool, power_pin_check v l b = .ok ()
      ↔ ¬(netMismatch (processedVerilog v) b ∨ netMismatch (processedLef l) b) := by
    intro b
    rw [← isErr_false_iff, ← hmain b]
    cases isErr (power_pin_check v l b) <;> simp
  refine ⟨hmain u3, ?_, ?_⟩
  · intro hok
    have hvm := (hok_iff u3).mp hok
    push_neg at hvm
    have hva : containsSub vapwr (processedVerilog v) = u3 := by
      have h1 := hvm.1
      unfold netMismatch at h1
      push_neg at h1
      exact h1.2.2
    rw [hmain (!u3)]
    left
    unfold netMismatch
    right; right
    cases u3 <;> simp_all
  · intro hg hd hg' hd' hsame
    rw [hok_iff u3]
    unfold netMismatch
    rw [hg, hd, hg', hd', ← hsame]
    cases hva : containsSub vapwr (processedVerilog v) <;> cases u3 <;> simp

/-- Claim C4 witness: a netlist and LEF pair with both required nets and no
extended-supply net passes with the flag unset and fails after flipping the
flag, through the characterisation theorem. -/
theorem power_pin_check_iff_witness :
    power_pin_check sampleVerilog sampleLef false = .ok ()
    ∧ isErr (power_pin_check sampleVerilog sampleLef true) = true :=
  ⟨by decide, (power_pin_check_iff sampleVerilog sampleLef false).2.1 (by decide)⟩

/-- Claim C5 counterexample: a LEF text whose only occurrence of VAPWR sits
inside a line comment.  Were comments stripped from the LEF text, VAPWR
would not be counted (first conjunct); the check nevertheless fails
reporting that the LEF contains VAPWR, because the stripping of lines
148-149 of precheck.py is applied to the Verilog text only. -/
theorem lef_comment_counterexample :
    containsSub vapwr (stripBlockComments (stripLineComments (processedLef
      "MACRO tt PIN VGND PIN VDPWR END // VAPWR".toList))) = false
    ∧ power_pin_check "module tt VGND VDPWR endmodule".toList
        "MACRO tt PIN VGND PIN VDPWR END // VAPWR".toList false
      = .error "LEF contains VAPWR" :=
  ⟨by decide, by decide⟩

/-- Claim C5 (amended): line and block comments are stripped from the
netlist (Verilog) text only, before the textual search; the LEF text is
searched with comments intact, after the VPWR rewrite.  Consequently the
outcome depends on the Verilog file only through its comment-stripped form. -/
theorem comment_strip_verilog_only (v w l : List Char) (u3 : Bool) :
    power_pin_check v l u3
      = searchNets (stripBlockComments (stripLineComments (replaceVPWR v))) (replaceVPWR l) u3
    ∧ (stripBlockComments (stripLineComments (replaceVPWR v))
        = stripBlockComments (stripLineComments (replaceVPWR w)) →
       power_pin_check v l u3 = power_pin_check w l u3) := by
  constructor
  · rfl
  · intro h
    unfold power_pin_check processedVerilog
    rw [h]

/-- Claim C5 (amended) witness: deleting a Verilog line comment does not
change the outcome. -/
theorem comment_strip_verilog_only_witness :
    power_pin_check "VGND VDPWR //x".toList sampleLef false
      = power_pin_check "VGND VDPWR ".toList sampleLef false :=
  (comment_strip_verilog_only "VGND VDPWR //x".toList "VGND VDPWR ".toList
    sampleLef false).2 (by decide)

theorem containsSub_cons (pat : List Char) (c : Char) (cs : List Char) :
    containsSub pat (c :: cs) = (List.isPrefixOf pat (c :: cs) || containsSub pat cs) := rfl

theorem isPrefixOf_vpwr_false (c : Char) (cs : List Char)
    (hne : ∀ t : List Char, c = 'V' → cs = 'P' :: 'W' :: 'R' :: t → False) :
    List.isPrefixOf vpwr (c :: cs) = false := by
  cases hp : List.isPrefixOf vpwr (c :: cs) with
  | false => rfl
  | true =>
    exfalso
    obtain ⟨t, ht⟩ := List.isPrefixOf_iff_prefix.mp hp
    simp only [vpwr, List.cons_append, List.cons.injEq] at ht
    exact hne t ht.1.symm ht.2.symm

theorem replaceVPWR_cons (c : Char) (cs : List Char)
    (hne : ∀ t : List Char, c = 'V' → cs = 'P' :: 'W' :: 'R' :: t → False) :
    replaceVPWR (c :: cs) = c :: replaceVPWR cs := by
  rw [replaceVPWR.eq_def]
  split
  · rename_i heq
    exact absurd heq (by simp)
  · rename_i cs' heq
    obtain ⟨h1, h2⟩ := List.cons.injEq .. ▸ heq
    exact (hne cs' h1 h2).elim
  · rename_i c' cs' heq
    obtain ⟨h1, h2⟩ := List.cons.injEq .. ▸ heq
    rw [h1, h2]

theorem replaceVPWR_id (s : List Char) (h : containsSub vpwr s = false) :
    replaceVPWR s = s := by
  induction s using replaceVPWR.induct with
  | case1 => rfl
  | case2 cs ih =>
    exfalso
    rw [containsSub_cons] at h
    simp [vpwr, List.isPrefixOf] at h
  | case3 c cs hne ih =>
    rw [containsSub_cons, isPrefixOf_vpwr_false c cs hne, Bool.false_or] at h
    rw [replaceVPWR_cons c cs hne, ih h]

theorem replaceVPWR_contains_vdpwr (s : List Char) (h : containsSub vpwr s = true) :
    containsSub vdpwr (replaceVPWR s) = true := by
  induction s using replaceVPWR.induct with
  | case1 => simp [containsSub, vpwr] at h
  | case2 cs ih =>
    have hr : replaceVPWR ('V' :: 'P' :: 'W' :: 'R' :: cs)
        = 'V' :: 'D' :: 'P' :: 'W' :: 'R' :: replaceVPWR cs := rfl
    rw [hr, containsSub_cons]
    have hp : List.isPrefixOf vdpwr ('V' :: 'D' :: 'P' :: 'W' :: 'R' :: replaceVPWR cs) = true := by
      simp [vdpwr, List.isPrefixOf]
    simp [hp]
  | case3 c cs hne ih =>
    rw [containsSub_cons, isPrefixOf_vpwr_false c cs hne, Bool.false_or] at h
    rw [replaceVPWR_cons c cs hne, containsSub_cons, ih h]
    simp

/-- Claim C10: the VPWR rewrite happens before the search, so the search for
the primary digital supply net succeeds on a text containing either VDPWR or
the legacy VPWR; and every diagnostic the power pin check can raise names
one of VGND, VDPWR, VAPWR, never the literal VPWR. -/
theorem vpwr_rewritten (s v l : List Char) (u3 : Bool) :
    (containsSub vdpwr (replaceVPWR s) = (containsSub vpwr s || containsSub vdpwr s))
    ∧ (∀ e, power_pin_check v l u3 = .error e → e ∈ powerPinMessages) := by
  constructor
  · cases hv : containsSub vpwr s with
    | true => simp [replaceVPWR_contains_vdpwr s hv]
    | false => simp [replaceVPWR_id s hv]
  · intro e he
    unfold power_pin_check at he
    have hmem : ∀ ft : String, ft = "Verilog" ∨ ft = "LEF" →
        ∀ s' : List Char, ∀ uu : Bool, netChecksFile ft s' uu = .error e →
        e ∈ powerPinMessages := by
      intro ft hft s' uu h
      have h6 := netChecksFile_error_mem ft s' uu e h
      rcases hft with hft | hft <;> subst hft <;>
        rcases h6 with h6 | h6 | h6 | h6 | h6 | h6 <;> subst h6 <;> decide
    cases hv : netChecksFile "Verilog" (processedVerilog v) u3 with
    | error e' =>
      rw [hv] at he
      have : e' = e := by simpa using he
      subst this
      exact hmem "Verilog" (Or.inl rfl) _ _ hv
    | ok u =>
      rw [hv] at he
      exact hmem "LEF" (Or.inr rfl) _ _ he

/-- Claim C10 witness: a text containing only the legacy VPWR is treated as
containing VDPWR, and a concrete raised diagnostic is among the twelve
messages over VGND, VDPWR, VAPWR. -/
theorem vpwr_rewritten_witness :
    containsSub vdpwr (replaceVPWR "legacy VPWR only".toList) = true
    ∧ "Verilog doesn\x27t contain VGND" ∈ powerPinMessages :=
  ⟨(vpwr_rewritten "legacy VPWR only".toList [] [] false).1.trans (by decide),
   (vpwr_rewritten [] "x".toList "x".toList false).2 "Verilog doesn\x27t contain VGND" (by decide)⟩

/-! ## Analog pin check lemmas and claim C7 -/

theorem runPins_isErr (f : Nat → Except String Unit) (ps : List Nat) :
    isErr (runPins f ps) = true ↔ ∃ p ∈ ps, isErr (f p) = true := by
  induction ps with
  | nil => simp [runPins, isErr]
  | cons p ps ih =>
    cases hf : f p with
    | ok u =>
      have hface : isErr (f p) = false := by rw [hf]; rfl
      simp only [runPins, hf]
      rw [ih]
      constructor
      · rintro ⟨q, hq, hqe⟩
        exact ⟨q, by simp [hq], hqe⟩
      · rintro ⟨q, hq, hqe⟩
        rcases List.mem_cons.mp hq with hq | hq
        · subst hq
          rw [hface] at hqe
          cases hqe
        · exact ⟨q, hq, hqe⟩
    | error e =>
      simp only [runPins, hf]
      constructor
      · intro _
        exact ⟨p, by simp, by rw [hf]; rfl⟩
      · intro _
        rfl

theorem runPins_append_ok (f : Nat → Except String Unit) (ps₁ ps₂ : List Nat)
    (h : ∀ p ∈ ps₁, f p = .ok ()) :
    runPins f (ps₁ ++ ps₂) = runPins f ps₂ := by
  induction ps₁ with
  | nil => rfl
  | cons p ps ih =>
    have hp : f p = .ok () := h p (by simp)
    rw [List.cons_append]
    simp only [runPins, hp]
    exact ih (fun q hq => h q (by simp [hq]))

theorem runPins_append_err (f : Nat → Except String Unit) (ps₁ ps₂ : List Nat) (e : String)
    (h : runPins f ps₁ = .error e) :
    runPins f (ps₁ ++ ps₂) = .error e := by
  induction ps₁ with
  | nil => simp [runPins] at h
  | cons p ps ih =>
    rw [List.cons_append]
    cases hf : f p with
    | ok u =>
      simp only [runPins, hf] at h ⊢
      exact ih h
    | error e' =>
      simp only [runPins, hf] at h ⊢
      exact h

theorem runPins_range_first (f : Nat → Except String Unit) (n pin : Nat) (e : String)
    (hpin : pin < n) (hok : ∀ q, q < pin → f q = .ok ()) (he : f pin = .error e) :
    runPins f (List.range n) = .error e := by
  induction n with
  | zero => omega
  | succ n ih =>
    rw [List.range_succ]
    rcases Nat.lt_or_ge pin n with hlt | hge
    · exact runPins_append_err f _ _ e (ih hlt)
    · have hpn : pin = n := by omega
      subst hpn
      rw [runPins_append_ok f _ _ (fun q hq => hok q (List.mem_range.mp hq))]
      simp [runPins, he]

theorem checkPin_isErr (met4p via3p : List Poly) (pp : Nat → Bool → ℚ) (u3 : Bool)
    (ap : Int) (po : List (String × String)) (pin : Nat) :
    isErr (checkPin met4p via3p pp u3 ap po pin) = slotDisagrees met4p via3p pp u3 ap po pin := by
  unfold checkPin slotDisagrees
  cases hc : slotConnected met4p via3p pp u3 pin <;>
    cases hpc : slotExpectedCount ap pin <;>
    cases hpd : slotExpectedPinout po pin <;> simp [isErr]

theorem checkPin_eq_error (met4p via3p : List Poly) (pp : Nat → Bool → ℚ) (u3 : Bool)
    (ap : Int) (po : List (String × String)) (pin : Nat)
    (hd : slotDisagrees met4p via3p pp u3 ap po pin = true) :
    checkPin met4p via3p pp u3 ap po pin
      = .error (slotDiag met4p via3p pp u3 ap po pin) := by
  unfold slotDisagrees at hd
  unfold checkPin slotDiag
  cases hc : slotConnected met4p via3p pp u3 pin <;>
    cases hpc : slotExpectedCount ap pin <;>
    cases hpd : slotExpectedPinout po pin <;> simp_all

theorem checkPin_eq_ok (met4p via3p : List Poly) (pp : Nat → Bool → ℚ) (u3 : Bool)
    (ap : Int) (po : List (String × String)) (pin : Nat)
    (hd : slotDisagrees met4p via3p pp u3 ap po pin = false) :
    checkPin met4p via3p pp u3 ap po pin = .ok () := by
  unfold slotDisagrees at hd
  unfold checkPin
  cases hc : slotConnected met4p via3p pp u3 pin <;>
    cases hpc : slotExpectedCount ap pin <;>
    cases hpd : slotExpectedPinout po pin <;> simp_all

theorem analog_pin_check_top (lib : GDSLib) (tech : TechData) (u3 : Bool) (ap : Int)
    (po : List (String × String)) (top : Cell) (rest : List Cell)
    (htop : top_level lib = top :: rest) :
    analog_pin_check lib tech true u3 ap po
      = runPins (checkPin (met4View tech top) (via3View tech top) tech.pinPos u3 ap po)
          (List.range 8) := by
  unfold analog_pin_check
  rw [htop]
  simp

/-- Claim C7 counterexample: a slot whose connectivity agrees with the count
bound but disagrees with the pin-role mapping.  Slot 0 is connected, the
declared count is 1 (so the count bound expects it connected), and the
pinout is empty; the first disagreeing slot is slot 0, yet the reported
diagnostic is the pin-role one, not the count-disagreement diagnostic the
claim announces. -/
theorem analog_diag_counterexample :
    slotDisagrees (met4View sampleTech analogTopOne) (via3View sampleTech analogTopOne)
        sampleTech.pinPos false 1 [] 0 = true
    ∧ analog_pin_check analogLibOne sampleTech true false 1 []
        = .error "Analog pin 0 connected but `pinout.ua[0]` is falsy"
    ∧ "Analog pin 0 connected but `pinout.ua[0]` is falsy"
        ≠ "Analog pin 0 connected but `analog_pins` is 1" := by
  have hconn : slotConnected (met4View sampleTech analogTopOne) (via3View sampleTech analogTopOne)
      sampleTech.pinPos false 0 = true := by
    norm_num [slotConnected, connectedAt, anyOverlap, rectOverlaps, probeRect,
      met4View, via3View, cellFilter, cellFlatten, sampleTech, analogTopOne, min_def, max_def]
  have hd : slotDisagrees (met4View sampleTech analogTopOne) (via3View sampleTech analogTopOne)
      sampleTech.pinPos false 1 [] 0 = true := by
    rw [slotDisagrees, hconn]
    decide
  refine ⟨hd, ?_, by decide⟩
  have hdiag : slotDiag (met4View sampleTech analogTopOne) (via3View sampleTech analogTopOne)
      sampleTech.pinPos false 1 [] 0
      = "Analog pin 0 connected but `pinout.ua[0]` is falsy" := by
    rw [slotDiag, hconn]
    decide
  have he := checkPin_eq_error (met4View sampleTech analogTopOne)
    (via3View sampleTech analogTopOne) sampleTech.pinPos false 1 [] 0 hd
  rw [hdiag] at he
  rw [analog_pin_check_top analogLibOne sampleTech false 1 [] analogTopOne [] rfl]
  exact runPins_range_first _ 8 0 _ (by omega) (fun q hq => absurd hq (by omega)) he

/-- Claim C7 (amended): the analog pin check passes trivially when the
declared analog pin count is not positive; a slot is connected exactly when
one of the five probe-region intersections (via3 overlap, met4 above, below,
left, right) is non-empty; the check fails exactly when some slot of the
eight disagrees with the count bound or with the pinout truthiness; the
failure reported is the branch-ordered diagnostic of the first disagreeing
slot, and whenever that slot is connected while the count bound excludes it,
the diagnostic is the count-disagreement one. -/
theorem analog_pin_check_slots (lib : GDSLib) (tech : TechData) (u3 : Bool) (ap : Int)
    (po : List (String × String)) (top : Cell) (rest : List Cell)
    (htop : top_level lib = top :: rest) :
    (ap ≤ 0 → analog_pin_check lib tech (decide (0 < ap)) u3 ap po = .ok ())
    ∧ (∀ pin : Nat,
        slotConnected (met4View tech top) (via3View tech top) tech.pinPos u3 pin = true
        ↔ ((∃ p ∈ via3View tech top, rectOverlaps p
              (probeRect (tech.pinPos pin u3) 0 (tech.pinPos pin u3 + 9/10) 1) = true)
          ∨ (∃ p ∈ met4View tech top, rectOverlaps p
              (probeRect (tech.pinPos pin u3) (1 + 1/10) (tech.pinPos pin u3 + 9/10) (1 + 1/2)) = true)
          ∨ (∃ p ∈ met4View tech top, rectOverlaps p
              (probeRect (tech.pinPos pin u3) (0 - 1/2) (tech.pinPos pin u3 + 9/10) (0 - 1/10)) = true)
          ∨ (∃ p ∈ met4View tech top, rectOverlaps p
              (probeRect (tech.pinPos pin u3 - 1/2) 0 (tech.pinPos pin u3 - 1/10) 1) = true)
          ∨ (∃ p ∈ met4View tech top, rectOverlaps p
              (probeRect (tech.pinPos pin u3 + 9/10 + 1/10) 0 (tech.pinPos pin u3 + 9/10 + 1/2) 1) = true)))
    ∧ (isErr (analog_pin_check lib tech true u3 ap po) = true
        ↔ ∃ pin < 8, slotDisagrees (met4View tech top) (via3View tech top) tech.pinPos u3 ap po pin = true)
    ∧ (∀ pin : Nat, pin < 8 →
        slotDisagrees (met4View tech top) (via3View tech top) tech.pinPos u3 ap po pin = true →
        (∀ q : Nat, q < pin →
          slotDisagrees (met4View tech top) (via3View tech top) tech.pinPos u3 ap po q = false) →
        analog_pin_check lib tech true u3 ap po
          = .error (slotDiag (met4View tech top) (via3View tech top) tech.pinPos u3 ap po pin))
    ∧ (∀ pin : Nat,
        slotConnected (met4View tech top) (via3View tech top) tech.pinPos u3 pin = true →
        slotExpectedCount ap pin = false →
        slotDiag (met4View tech top) (via3View tech top) tech.pinPos u3 ap po pin
          = "Analog pin " ++ toString pin ++ " connected but `analog_pins` is " ++ toString ap) := by
  refine ⟨?_, ?_, ?_, ?_, ?_⟩
  · intro hle
    have hfalse : decide (0 < ap) = false := by simp; omega
    rw [hfalse]
    rfl
  · intro pin
    simp only [slotConnected, connectedAt, anyOverlap, List.any_eq_true, Bool.or_eq_true,
      or_assoc]
  · rw [analog_pin_check_top lib tech u3 ap po top rest htop, runPins_isErr]
    constructor
    · rintro ⟨p, hp, hperr⟩
      exact ⟨p, List.mem_range.mp hp, by rwa [checkPin_isErr] at hperr⟩
    · rintro ⟨p, hp, hpd⟩
      exact ⟨p, List.mem_range.mpr hp, by rwa [checkPin_isErr]⟩
  · intro pin hpin hd hmin
    rw [analog_pin_check_top lib tech u3 ap po top rest htop]
    exact runPins_range_first _ 8 pin _ hpin
      (fun q hq => checkPin_eq_ok _ _ _ _ _ _ q (hmin q hq))
      (checkPin_eq_error _ _ _ _ _ _ pin hd)
  · intro pin hc hpc
    rw [slotDiag, hc, hpc]
    rfl

/-- Claim C7 (amended) witness: geometry connecting slots 0 and 1, pinout
marking both used, but a declared count of 1: the first disagreeing slot is
slot 1, connected while the count bound excludes it, and the check reports
the count-disagreement diagnostic for slot 1. -/
theorem analog_pin_check_slots_witness :
    analog_pin_check analogLib sampleTech true false 1 analogPinout
      = .error "Analog pin 1 connected but `analog_pins` is 1" := by
  have hc0 : slotConnected (met4View sampleTech analogTop) (via3View sampleTech analogTop)
      sampleTech.pinPos false 0 = true := by
    norm_num [slotConnected, connectedAt, anyOverlap, rectOverlaps, probeRect,
      met4View, via3View, cellFilter, cellFlatten, sampleTech, analogTop, min_def, max_def]
  have hc1 : slotConnected (met4View sampleTech analogTop) (via3View sampleTech analogTop)
      sampleTech.pinPos false 1 = true := by
    norm_num [slotConnected, connectedAt, anyOverlap, rectOverlaps, probeRect,
      met4View, via3View, cellFilter, cellFlatten, sampleTech, analogTop, min_def, max_def]
  have hd1 : slotDisagrees (met4View sampleTech analogTop) (via3View sampleTech analogTop)
      sampleTech.pinPos false 1 analogPinout 1 = true := by
    rw [slotDisagrees, hc1]
    decide
  have hd0 : slotDisagrees (met4View sampleTech analogTop) (via3View sampleTech analogTop)
      sampleTech.pinPos false 1 analogPinout 0 = false := by
    rw [slotDisagrees, hc0]
    decide
  have h := (analog_pin_check_slots analogLib sampleTech false 1 analogPinout
      analogTop [] rfl).2.2.2.1 1 (by omega) hd1
      (fun q hq => by
        have hq0 : q = 0 := by omega
        rw [hq0]
        exact hd0)
  have hdiag : slotDiag (met4View sampleTech analogTop) (via3View sampleTech analogTop)
      sampleTech.pinPos false 1 analogPinout 1
      = "Analog pin 1 connected but `analog_pins` is 1" := by
    rw [slotDiag, hc1]
    decide
  rw [hdiag] at h
  exact h

end Precheck
